import Mathlib

/-!
Verification of the SoundConverterApp batch job pipeline frontend.

This file shallowly embeds the JavaScript/React source of the repository
(frontend under src/frontend and the unnamed parts, notably the
MasterControls component, the useSettings hook and the HomePage page)
into Lean 4 and proves properties about the embedded definitions.

Modelling conventions:
- JavaScript numbers that carry fractional values (LUFS targets, gains,
  speed multipliers) are modelled as rationals; slider and index values
  produced by parseInt are modelled as integers.
- JavaScript falsiness of strings (the empty string) and of numbers
  (zero and NaN) is modelled explicitly by the jsOr helpers below.
- React state setters are modelled by pure state-transition functions on
  explicit state records; a sequence of setter calls inside one handler
  is modelled as the composite update the handler performs.
- Translation lookups (the t function of utils/i18n) are modelled as the
  identity on translation keys: no claim depends on localized text.
- Purely visual fields (CSS classes, human readable size labels produced
  by formatFileSize) and nondeterministic ids (crypto.randomUUID) are
  not part of the embedded state; no claim mentions them.
-/

namespace SoundConverter

/-- Translation lookup of utils/i18n.js, modelled as the identity on keys. -/
def t (key : String) : String := key

/-- JavaScript "a || b" for an optional string a, where the empty string
is falsy: used for expressions such as "file.name || 'Unknown'". -/
def jsOrOptStr (a : Option String) (b : String) : String :=
  match a with
  | some s => if s = "" then b else s
  | none => b

/-- JavaScript "a || b" for a string a, where the empty string is falsy:
used for expressions such as "outputFolder || './'". -/
def jsOrStr (a : String) (b : String) : String :=
  if a = "" then b else a

/-- JavaScript "x || null" for a possibly absent string x: an absent
entry stays null and an empty string collapses to null; used for
"outputs[i] || null". -/
def jsNullIfEmpty (a : Option String) : Option String :=
  match a with
  | some s => if s = "" then none else some s
  | none => none

/-- JavaScript "a || b" for a number a that may be NaN (modelled as none),
where 0 is falsy: used for "parseInt(settings.concurrentFiles) || 2". -/
def jsOrInt (a : Option Int) (b : Int) : Int :=
  match a with
  | some n => if n = 0 then b else n
  | none => b

/-- ASCII lower-casing of a string, modelled on character lists so that it
reduces in the kernel; models String.prototype.toLowerCase on the ASCII
strings the code compares. -/
def lowerStr (s : String) : String :=
  String.mk (s.data.map Char.toLower)

/-- ASCII upper-casing of a string; models String.prototype.toUpperCase. -/
def upperStr (s : String) : String :=
  String.mk (s.data.map Char.toUpper)

/-- Boolean test that one character list is a prefix of another. -/
def charsPrefixOf : List Char → List Char → Bool
  | [], _ => true
  | _ :: _, [] => false
  | a :: as, b :: bs => a == b && charsPrefixOf as bs

/-- Boolean test that one character list occurs contiguously inside
another. -/
def charsInfixOf (needle hay : List Char) : Bool :=
  match hay with
  | [] => needle.isEmpty
  | _ :: rest => charsPrefixOf needle hay || charsInfixOf needle rest

/-- JavaScript "haystack.includes(needle)", as contiguous substring search
on the underlying character lists. -/
def containsSub (haystack needle : String) : Bool :=
  charsInfixOf needle.data haystack.data

/-- Characters treated as leading whitespace by parseInt; the common
whitespace characters appearing in practice. -/
def jsWhitespace (c : Char) : Bool :=
  c = ' ' || c = '\t' || c = '\n' || c = '\r'

/-- Hexadecimal digit test for the 0x prefix branch of parseInt. -/
def isHexDigitChar (c : Char) : Bool :=
  c.isDigit || (97 ≤ c.toNat && c.toNat ≤ 102) || (65 ≤ c.toNat && c.toNat ≤ 70)

/-- Numeric value of a hexadecimal digit character. -/
def hexDigitVal (c : Char) : Nat :=
  if c.isDigit then c.toNat - 48
  else if 97 ≤ c.toNat then c.toNat - 87
  else c.toNat - 55

/-- Value of a digit list in the given base, most significant first. -/
def digitsVal (base : Nat) (ds : List Char) : Nat :=
  ds.foldl (fun acc c => base * acc + hexDigitVal c) 0

/-- JavaScript parseInt(s) with no radix argument: skip leading
whitespace, read an optional sign, then either a 0x/0X hexadecimal prefix
followed by hexadecimal digits or a maximal run of decimal digits; none
models NaN (no digits found). Parsing stops at the first invalid
character, so trailing garbage is ignored as in JavaScript. -/
def jsParseInt (s : String) : Option Int :=
  let cs := s.data.dropWhile (fun c => jsWhitespace c)
  let signAndRest : Int × List Char :=
    match cs with
    | '-' :: r => (-1, r)
    | '+' :: r => (1, r)
    | _ => (1, cs)
  let sign := signAndRest.1
  let body := signAndRest.2
  let hexAndRest : Bool × List Char :=
    match body with
    | '0' :: 'x' :: r => (true, r)
    | '0' :: 'X' :: r => (true, r)
    | _ => (false, body)
  let ds :=
    if hexAndRest.1 then hexAndRest.2.takeWhile (fun c => isHexDigitChar c)
    else body.takeWhile (fun c => c.isDigit)
  if ds.isEmpty then none
  else some (sign * (digitsVal (if hexAndRest.1 then 16 else 10) ds : Int))

/-- Mastering parameter record of MasterControls.jsx: target loudness in
LUFS, compression and limiter flags, and output gain in dB. -/
structure MasteringParameters where
  target_lufs : ℚ
  apply_compression : Bool
  apply_limiter : Bool
  output_gain : ℚ
deriving DecidableEq, Repr

/-- The fixed PRESETS table of MasterControls.jsx (src/unnamed/part_005,
lines 6 to 25): three named presets, unknown names resolve to nothing. -/
def PRESETS (name : String) : Option MasteringParameters :=
  if name = "Music" then
    some { target_lufs := -12.0, apply_compression := true,
           apply_limiter := true, output_gain := 0.0 }
  else if name = "Podcast" then
    some { target_lufs := -16.0, apply_compression := true,
           apply_limiter := true, output_gain := 1.5 }
  else if name = "Voice-over" then
    some { target_lufs := -18.0, apply_compression := true,
           apply_limiter := true, output_gain := 0.5 }
  else none

/-- The master-mode slice of the HomePage state: the selected preset name
and the current mastering parameters. -/
structure MasterState where
  preset : String
  params : MasteringParameters
deriving DecidableEq, Repr

/-- handlePresetChange of MasterControls.jsx (src/unnamed/part_005, lines
58 to 72): always sets the preset name via onPresetChange, and copies the
four table values into the parameters via onParametersChange only when
the name is present in PRESETS; otherwise the parameters are untouched. -/
def handlePresetChange (newPreset : String) (s : MasterState) : MasterState :=
  let s1 : MasterState := { s with preset := newPreset }
  match PRESETS newPreset with
  | some p =>
      { s1 with
        params :=
          { target_lufs := p.target_lufs,
            apply_compression := p.apply_compression,
            apply_limiter := p.apply_limiter,
            output_gain := p.output_gain } }
  | none => s1

/-- The suggestion handling of handleSmartAnalysis in HomePage
(src/unnamed/part_008, lines 452 to 467): a missing suggestion defaults
to "Music" via the JavaScript or-operator, the preset name is always set,
and the parameters are copied from PRESETS only when the suggestion is a
known preset name. -/
def applyAnalysisSuggestion (analysisSuggestion : Option String)
    (s : MasterState) : MasterState :=
  let suggestion := jsOrOptStr analysisSuggestion "Music"
  let s1 : MasterState := { s with preset := suggestion }
  match PRESETS suggestion with
  | some p =>
      { s1 with
        params :=
          { target_lufs := p.target_lufs,
            apply_compression := p.apply_compression,
            apply_limiter := p.apply_limiter,
            output_gain := p.output_gain } }
  | none => s1

/-- The initial masterParams state of HomePage (src/unnamed/part_008,
lines 51 to 56). -/
def initialMasterParams : MasteringParameters :=
  { target_lufs := -14.0, apply_compression := true,
    apply_limiter := true, output_gain := 0.0 }

/-- The initial master-mode state of HomePage: preset "Music" with the
initial parameters. -/
def initialMasterState : MasterState :=
  { preset := "Music", params := initialMasterParams }

/-- The modify-mode parameter record of ModifyControls.jsx: speed
multiplier, pitch shift in semitones, cut range as integer percentages,
and the cut-enabled flag. -/
structure ModifyParams where
  speed : ℚ
  pitch : Int
  cutStart : Int
  cutEnd : Int
  isCutEnabled : Bool
deriving DecidableEq, Repr

/-- The initial modifyParams state of HomePage (src/unnamed/part_008,
lines 64 to 70). -/
def initialModifyParams : ModifyParams :=
  { speed := 1.0, pitch := 0, cutStart := 0, cutEnd := 100,
    isCutEnabled := false }

/-- One user slider interaction inside ModifyControls.jsx: each
constructor carries the raw value the browser reports for the moved
slider (parseFloat for speed, parseInt for the others). -/
inductive ModifyEvent where
  | setSpeed (v : ℚ)
  | setPitch (v : Int)
  | setCutStart (v : Int)
  | setCutEnd (v : Int)
deriving DecidableEq, Repr

/-- The onChange handlers of ModifyControls.jsx (lines 30 to 123): speed
and pitch overwrite their field; the start thumb stores
min(value, cutEnd - 1) and the end thumb stores max(value, cutStart + 1),
each through handleChange which replaces exactly one field. -/
def applyModifyEvent (e : ModifyEvent) (p : ModifyParams) : ModifyParams :=
  match e with
  | .setSpeed v => { p with speed := v }
  | .setPitch v => { p with pitch := v }
  | .setCutStart v => { p with cutStart := min v (p.cutEnd - 1) }
  | .setCutEnd v => { p with cutEnd := max v (p.cutStart + 1) }

/-- A sequence of slider interactions applied in order. -/
def applyModifyEvents (es : List ModifyEvent) (p : ModifyParams) : ModifyParams :=
  es.foldl (fun q e => applyModifyEvent e q) p

/-- The persisted settings record of useSettings.js
(src/unnamed/part_006): configuration values are stored as strings
exactly as the settings page stores them. -/
structure Settings where
  defaultFormat : String
  outputLocation : String
  customOutputFolder : String
  autoClear : Bool
  notifySetting : Bool
  concurrentFiles : String
  maxFileSize : String
  enableLogging : Bool
  accentColor : String
  fontSize : String
deriving DecidableEq, Repr

/-- DEFAULT_SETTINGS of useSettings.js (src/unnamed/part_006, lines 5 to
21); the source field named after desktop alerts is rendered here as
notifySetting. -/
def DEFAULT_SETTINGS : Settings :=
  { defaultFormat := "AAC", outputLocation := "Same as source",
    customOutputFolder := "", autoClear := false, notifySetting := true,
    concurrentFiles := "2", maxFileSize := "500", enableLogging := false,
    accentColor := "#007AFF", fontSize := "medium" }

/-- Lifecycle status of one file row in the HomePage list, matching the
status strings "loading", "ready", "processing", "done", "error". -/
inductive FileStatus where
  | loading
  | ready
  | processing
  | done
  | error
deriving DecidableEq, Repr

instance : Inhabited FileStatus := ⟨FileStatus.loading⟩

/-- One entry of the HomePage files list, with the fields the pipeline
reads: display name, path, derived format tag, byte size, duration label,
status, error detail and output path. -/
structure FileEntry where
  name : String
  path : String
  format : String
  sizeBytes : Nat
  duration : String
  status : FileStatus
  error : Option String
  output : Option String
deriving DecidableEq, Repr

instance : Inhabited FileEntry :=
  ⟨{ name := "", path := "", format := "", sizeBytes := 0,
     duration := "--", status := FileStatus.loading, error := none,
     output := none }⟩

/-- A raw file object handed to handleFilesAdded by drag and drop, the
file dialog or the dock: possibly missing name, path and size. -/
structure RawFile where
  name : Option String
  path : Option String
  size : Option Nat
deriving DecidableEq, Repr

/-- Splitting a character list at a separator character, matching
String.prototype.split: the empty list of characters yields one empty
field, and a trailing separator yields a trailing empty field. -/
def splitChars (sep : Char) : List Char → List (List Char)
  | [] => [[]]
  | c :: rest =>
      let r := splitChars sep rest
      if c = sep then [] :: r
      else
        match r with
        | h :: tl => (c :: h) :: tl
        | [] => [[c]]

/-- Keep only uppercase ASCII letters and digits, matching the regular
expression replace of handleFilesAdded that deletes other characters. -/
def keepUpperAlnum (cs : List Char) : List Char :=
  cs.filter (fun c => (65 ≤ c.toNat && c.toNat ≤ 90) || c.isDigit)

/-- The format tag computed in handleFilesAdded (src/unnamed/part_008,
lines 107 to 110): the final extension upper-cased when the name has one,
sanitized to at most four uppercase alphanumeric characters, with "FILE"
as fallback. -/
def formatTag (name : String) : String :=
  let parts := splitChars '.' name.data
  let fmt0 :=
    if parts.length > 1 then
      String.mk ((parts.getLastD []).map Char.toUpper)
    else "FILE"
  let fmt1 := String.mk ((keepUpperAlnum fmt0.data).take 4)
  jsOrStr fmt1 "FILE"

/-- The immediate file entry built for each raw file in handleFilesAdded
(src/unnamed/part_008, lines 106 to 125): name defaults to "Unknown",
path defaults to the name, size defaults to zero, duration shows "--",
status starts as loading. The random id and the human readable size label
are not modelled (no claim reads them). -/
def mkImmediateFile (f : RawFile) : FileEntry :=
  let name := jsOrOptStr f.name "Unknown"
  { name := name,
    path := jsOrOptStr f.path name,
    format := formatTag name,
    sizeBytes := f.size.getD 0,
    duration := "--",
    status := FileStatus.loading,
    error := none,
    output := none }

/-- A toast notification: a tone tag ("info", "success", "error") and a
message. -/
structure Toast where
  tone : String
  message : String
deriving DecidableEq, Repr

/-- The synchronous list update of handleFilesAdded (src/unnamed/part_008,
lines 103 to 152): build immediate entries, drop those whose path equals
the path of an already present entry, and append the remainder; when
nothing remains the list is untouched. Returns the new list and the last
toast the handler sets synchronously (the background metadata loading and
the output-folder autofill are separate asynchronous steps and do not
reorder or remove entries). -/
def handleFilesAdded (newFiles : List RawFile) (current : List FileEntry) :
    List FileEntry × Option Toast :=
  let immediateFiles := newFiles.map mkImmediateFile
  let existingPaths := current.map (fun f => f.path)
  let newUniqueFiles :=
    immediateFiles.filter (fun f => ! existingPaths.contains f.path)
  if newUniqueFiles.isEmpty then
    (current,
      if immediateFiles.length > 0 then
        some { tone := "info",
               message := toString immediateFiles.length ++ " " ++
                 t "duplicateSkipped" }
      else none)
  else
    (current ++ newUniqueFiles,
      some { tone := "info",
             message := t "addingFiles" ++ " " ++
               toString newUniqueFiles.length })

/-- The HomePage mode switch: the four mode strings "format", "enhance",
"clean", "modify" of src/unnamed/part_008 line 44. -/
inductive Mode where
  | format
  | enhance
  | clean
  | modify
deriving DecidableEq, Repr

/-- The job submission payload assembled by buildPayload; fields used
only by some operations are optional and absent otherwise, matching the
JavaScript object spreads. -/
structure Payload where
  operation : String
  files : List String
  output : String
  concurrent_files : Int
  format : String
  input_paths : Option (List String) := none
  output_directory : Option String := none
  preset : Option String := none
  parameters : Option MasteringParameters := none
  silence_threshold : Option ℚ := none
  minimum_silence_ms : Option Int := none
  padding_ms : Option Int := none
  speed : Option ℚ := none
  pitch : Option Int := none
  cut_start : Option Int := none
  cut_end : Option Int := none
deriving DecidableEq, Repr

/-- The HomePage state slice touched by the claims: the file list, the
chosen output folder, the mode and per-mode parameters, and the progress
and feedback fields. -/
structure HomeState where
  files : List FileEntry
  outputFolder : String
  mode : Mode
  selectedFormat : String
  masterPreset : String
  masterParams : MasteringParameters
  trimThreshold : ℚ
  trimMinSilence : Int
  trimPadding : Int
  modifyParams : ModifyParams
  progress : Nat
  currentFile : String
  processingStatus : String
  errorFiles : List String
  toast : Option Toast
deriving DecidableEq, Repr

/-- buildPayload of HomePage (src/unnamed/part_008, lines 376 to 425):
the file list keeps only entries whose status is ready, the output
directory falls back to "./", and concurrent_files is
parseInt(settings.concurrentFiles) || 2 with no further clamping. The
operation-specific block is selected by the mode. -/
def buildPayload (settings : Settings) (s : HomeState) : Payload :=
  let filePaths :=
    (s.files.filter (fun f => f.status = FileStatus.ready)).map
      (fun f => f.path)
  let output := jsOrStr s.outputFolder "./"
  let cf := jsOrInt (jsParseInt settings.concurrentFiles) 2
  match s.mode with
  | Mode.format =>
      { operation := "convert", files := filePaths, output := output,
        concurrent_files := cf, format := lowerStr s.selectedFormat }
  | Mode.enhance =>
      { operation := "master", files := filePaths, output := output,
        concurrent_files := cf, format := "wav",
        input_paths := some filePaths, output_directory := some output,
        preset := some s.masterPreset,
        parameters := some s.masterParams }
  | Mode.clean =>
      { operation := "trim", files := filePaths, output := output,
        concurrent_files := cf, format := "wav",
        input_paths := some filePaths, output_directory := some output,
        silence_threshold := some s.trimThreshold,
        minimum_silence_ms := some s.trimMinSilence,
        padding_ms := some s.trimPadding }
  | Mode.modify =>
      { operation := "modify", files := filePaths, output := output,
        concurrent_files := cf, format := "wav",
        input_paths := some filePaths, output_directory := some output,
        speed := some s.modifyParams.speed,
        pitch := some s.modifyParams.pitch,
        cut_start := some s.modifyParams.cutStart,
        cut_end := some s.modifyParams.cutEnd }

/-- handleProcess of HomePage (src/unnamed/part_008, lines 484 to 511),
up to the awaited convert call: with no files a toast is shown and
nothing else happens; with no output folder likewise; otherwise the file
statuses are reset to ready, progress and status are reset, and the
convert command is dispatched with the payload. The payload is built from
the file list captured before the reset, reflecting that buildPayload
reads the render-time files value. The second component is the payload
handed to convert, or none when convert is not invoked. -/
def handleProcess (settings : Settings) (s : HomeState) :
    HomeState × Option Payload :=
  if s.files.length = 0 then
    ({ s with toast := some { tone := "error", message := t "pleaseAddProcess" } },
     none)
  else if s.outputFolder = "" then
    ({ s with toast := some { tone := "error", message := t "pleaseSelectOutput" } },
     none)
  else
    let payload := buildPayload settings s
    let resetFiles :=
      s.files.map (fun f =>
        { f with status := FileStatus.ready, error := none, output := none })
    ({ s with files := resetFiles, progress := 0,
              processingStatus := t "starting", errorFiles := [] },
     some payload)

/-- One conversion-progress event payload as received by the HomePage
listener: an event tag, the optional analyze marker, the progress fields
and the completion fields. Absent JavaScript fields are none or the
neutral default the destructuring assigns. -/
structure ConversionEvent where
  event : String
  operation_type : Option String := none
  index : Int := 0
  total : Int := 0
  file : String := ""
  status : String := ""
  message : Option String := none
  outputs : Option (List (Option String)) := none
deriving DecidableEq, Repr

/-- Side effects the listener may trigger besides the state update: a
desktop notification and a scheduled auto-clear. -/
structure ListenerEffects where
  notified : Bool := false
  scheduledClear : Bool := false
deriving DecidableEq, Repr

/-- Index-passing map matching JavaScript Array.prototype.map with an
index argument; the counter starts at the given offset. -/
def jsMapIdx (f : α → Nat → β) : Nat → List α → List β
  | _, [] => []
  | k, a :: as => f a k :: jsMapIdx f (k + 1) as

/-- The userMessage computation of the complete-error branch
(src/unnamed/part_008, lines 616 to 627): a tool-missing message when the
lower-cased message mentions "located" or "install ffmpeg", else the raw
message when it is short and not technical, else a generic failure
message. -/
def completeErrorMessage (message : Option String) : String :=
  let isFFmpegMissing :=
    match message with
    | some m =>
        containsSub (lowerStr m) "located" ||
        containsSub (lowerStr m) "install ffmpeg"
    | none => false
  if isFFmpegMissing then t "toolsNotFound"
  else
    match message with
    | some m =>
        if m ≠ "" ∧ m.length < 100 ∧ ¬ (containsSub m "Error:" = true) then m
        else t "processingFailedCheck"
    | none => t "processingFailedCheck"

/-- The conversion-progress listener of HomePage (src/unnamed/part_008,
lines 555 to 631). Events marked analyze are ignored outright. A progress
event updates the current file, the status line and the status of the
file at position index - 1. A complete event with status success marks
every file done and stores the aligned output via outputs[i] || null
(null when the entry is absent, null, or the empty string), sets
progress to 100 and raises a success toast, with notification and
auto-clear effects per the settings; any other completion status marks
every file failed, resets progress to 0 and raises an error toast. -/
def applyConversionEvent (settings : Settings) (ev : ConversionEvent)
    (s : HomeState) : HomeState × ListenerEffects :=
  if ev.operation_type = some "analyze" then (s, {})
  else
    let s1 :=
      if ev.event = "progress" then
        { s with
          currentFile := ev.file,
          processingStatus :=
            "Processing " ++ toString ev.index ++ "/" ++ toString ev.total,
          files :=
            jsMapIdx
              (fun f i =>
                if (i : Int) = ev.index - 1 then
                  if ev.status = "processing" then
                    { f with status := FileStatus.processing }
                  else f
                else f)
              0 s.files }
      else s
    if ev.event = "complete" then
      if ev.status = "success" then
        let outputs := ev.outputs.getD []
        ({ s1 with
           processingStatus := t "processingCompleteTitle",
           progress := 100,
           currentFile := "",
           files :=
             jsMapIdx
               (fun f i =>
                 { f with status := FileStatus.done,
                          output := jsNullIfEmpty (outputs.getD i none) })
               0 s1.files,
           toast := some { tone := "success",
                           message := jsOrOptStr ev.message (t "processingComplete") } },
         { notified := settings.notifySetting,
           scheduledClear := settings.autoClear })
      else
        ({ s1 with
           files :=
             s1.files.map (fun f =>
               { f with status := FileStatus.error,
                        error := some (t "processingFailed") }),
           progress := 0,
           processingStatus := t "failed",
           currentFile := "",
           toast := some { tone := "error",
                           message := completeErrorMessage ev.message } },
         {})
    else (s1, {})

/-- Outcome of one per-file Task of a Job: the produced output path on
success, an error description on failure. -/
inductive TaskResult where
  | succeeded (outputPath : String)
  | failed (error : String)
deriving DecidableEq, Repr

instance : Inhabited TaskResult := ⟨TaskResult.failed ""⟩

/-- The per-file output slot a TaskResult contributes to the Complete
event: the output path for a succeeded Task, null for a failed one. -/
def taskOutput (r : TaskResult) : Option String :=
  match r with
  | TaskResult.succeeded p => some p
  | TaskResult.failed _ => none

/-- Modelled from the spec: the backend Worker Pool / Scheduler and
Progress Emitter are not under src (only the frontend caller is). Per the
spec the Scheduler expands a Job into exactly one Task per input file and
the Complete event carries the per-file output/error list aligned by
index with the original input list. A JobRun records the input files and
the one-per-file Task outcomes. A succeeded Task carries the path of the
output file the Encoder Invoker wrote — a distinct output filename
derived from its own input name inside the output directory — so the
recorded output path of a succeeded Task is never the empty string. -/
structure JobRun where
  files : List String
  results : List TaskResult
  results_per_file : results.length = files.length
  outputs_nonempty : ∀ r ∈ results, r ≠ TaskResult.succeeded ""

/-- Modelled from the spec: the outputs array of the Complete event,
aligned by index with the input files; null marks a failed file. -/
def completeOutputs (j : JobRun) : List (Option String) :=
  j.results.map taskOutput

/-- The Complete event with status success, as the Progress Emitter
delivers it to the conversion-progress listener. -/
def successCompleteEvent (msg : Option String) (outputs : List (Option String)) :
    ConversionEvent :=
  { event := "complete", status := "success", message := msg,
    outputs := some outputs }

/-- A sample ready file entry used to instantiate theorems on concrete
inputs. -/
def sampleFile : FileEntry :=
  { name := "a.mp3", path := "/tmp/a.mp3", format := "MP3",
    sizeBytes := 100, duration := "--", status := FileStatus.ready,
    error := none, output := none }

/-- A second sample file entry with a distinct path. -/
def sampleFileB : FileEntry :=
  { sampleFile with name := "b.wav", path := "/tmp/b.wav", format := "WAV" }

/-- A sample HomePage state with two ready files and an output folder. -/
def sampleHome : HomeState :=
  { files := [sampleFile, sampleFileB], outputFolder := "/out",
    mode := Mode.format, selectedFormat := "MP3",
    masterPreset := "Music", masterParams := initialMasterParams,
    trimThreshold := -50, trimMinSilence := 500, trimPadding := 0,
    modifyParams := initialModifyParams, progress := 0,
    currentFile := "", processingStatus := "Idle", errorFiles := [],
    toast := none }

/-- The sample HomePage state with an empty file list. -/
def emptyHome : HomeState :=
  { sampleHome with files := [] }

/-- A raw file used twice within one batch to exhibit intra-batch
duplicates. -/
def dupRaw : RawFile :=
  { name := some "a.mp3", path := some "x.mp3", size := some 10 }

/-- A sample two-file JobRun with one succeeded and one failed Task. -/
def sampleJob : JobRun :=
  { files := ["/tmp/a.mp3", "/tmp/b.wav"],
    results := [TaskResult.succeeded "/out/a.flac", TaskResult.failed "bad"],
    results_per_file := rfl,
    outputs_nonempty := by decide }

/-- jsMapIdx preserves the length of the list. -/
theorem jsMapIdx_length (f : α → Nat → β) (k : Nat) (l : List α) :
    (jsMapIdx f k l).length = l.length := by
  induction l generalizing k with
  | nil => rfl
  | cons a as ih => simp [jsMapIdx, ih]

/-- Pointwise description of jsMapIdx: position i of the result is the
function applied to position i of the input and the shifted counter. -/
theorem jsMapIdx_getD (f : α → Nat → β) (l : List α) (k i : Nat)
    (h : i < l.length) (d : α) (d2 : β) :
    (jsMapIdx f k l).getD i d2 = f (l.getD i d) (k + i) := by
  induction l generalizing k i with
  | nil => simp at h
  | cons a as ih =>
    cases i with
    | zero => simp [jsMapIdx]
    | succ n =>
        have hn : n < as.length := Nat.lt_of_succ_lt_succ h
        have harith : k + (n + 1) = (k + 1) + n := by omega
        simp only [jsMapIdx, List.getD_cons_succ, harith]
        exact ih (k + 1) n hn

/-- Pointwise description of List.map through getD at in-range indices. -/
theorem getD_map_of_lt (g : α → β) (l : List α) (i : Nat)
    (h : i < l.length) (d : α) (d2 : β) :
    (l.map g).getD i d2 = g (l.getD i d) := by
  induction l generalizing i with
  | nil => simp at h
  | cons a as ih =>
    cases i with
    | zero => simp
    | succ n =>
        have hn : n < as.length := Nat.lt_of_succ_lt_succ h
        simp only [List.map_cons, List.getD_cons_succ]
        exact ih n hn

/-- C1: resolving each of the three fixed preset names yields exactly the
fixed-table MasteringParameters, and handlePresetChange sets the current
parameters to exactly these values while selecting the preset. -/
theorem preset_table_resolution (s : MasterState) :
    PRESETS "Music" = some { target_lufs := -12.0, apply_compression := true,
                             apply_limiter := true, output_gain := 0.0 }
    ∧ PRESETS "Podcast" = some { target_lufs := -16.0, apply_compression := true,
                                 apply_limiter := true, output_gain := 1.5 }
    ∧ PRESETS "Voice-over" = some { target_lufs := -18.0, apply_compression := true,
                                    apply_limiter := true, output_gain := 0.5 }
    ∧ (handlePresetChange "Music" s).params =
        { target_lufs := -12.0, apply_compression := true,
          apply_limiter := true, output_gain := 0.0 }
    ∧ (handlePresetChange "Music" s).preset = "Music"
    ∧ (handlePresetChange "Podcast" s).params =
        { target_lufs := -16.0, apply_compression := true,
          apply_limiter := true, output_gain := 1.5 }
    ∧ (handlePresetChange "Podcast" s).preset = "Podcast"
    ∧ (handlePresetChange "Voice-over" s).params =
        { target_lufs := -18.0, apply_compression := true,
          apply_limiter := true, output_gain := 0.5 }
    ∧ (handlePresetChange "Voice-over" s).preset = "Voice-over" :=
  ⟨rfl, rfl, rfl, rfl, rfl, rfl, rfl, rfl, rfl⟩

/-- C9: preset resolution is deterministic: for any preset name present
in the fixed table, the parameters produced by handlePresetChange do not
depend on any other program state. -/
theorem preset_resolution_deterministic (name : String) (s1 s2 : MasterState)
    (h : (PRESETS name).isSome = true) :
    (handlePresetChange name s1).params = (handlePresetChange name s2).params := by
  cases hp : PRESETS name with
  | none => rw [hp] at h; simp at h
  | some p => simp [handlePresetChange, hp]

/-- C9 witness: resolving "Music" from two different states yields the
same parameters. -/
theorem preset_resolution_deterministic_witness :
    (handlePresetChange "Music" initialMasterState).params =
    (handlePresetChange "Music"
      { preset := "Podcast",
        params := { target_lufs := -16.0, apply_compression := false,
                    apply_limiter := false, output_gain := 1.5 } }).params :=
  preset_resolution_deterministic "Music" _ _ rfl

/-- C4 counterexample: resolving the unknown preset name "Jazz" does not
fail with a configuration error: the embedded handler has no error
outcome at all; it silently leaves the mastering parameters unchanged
while still selecting the unknown name, and the smart-analysis path
silently defaults a missing suggestion to "Music". -/
theorem unknown_preset_no_error_counterexample :
    PRESETS "Jazz" = none
    ∧ (handlePresetChange "Jazz" initialMasterState).params =
        initialMasterState.params
    ∧ (handlePresetChange "Jazz" initialMasterState).preset = "Jazz"
    ∧ (applyAnalysisSuggestion none initialMasterState).preset = "Music" :=
  ⟨rfl, rfl, rfl, rfl⟩

/-- C4 amended: for every preset name outside the fixed table, resolution
yields nothing and handlePresetChange silently leaves the mastering
parameters unchanged while setting the preset name; no configuration
error is raised. -/
theorem unknown_preset_leaves_params (name : String) (s : MasterState)
    (h : PRESETS name = none) :
    (handlePresetChange name s).params = s.params
    ∧ (handlePresetChange name s).preset = name := by
  simp [handlePresetChange, h]

/-- C4 witness: the amended statement at the unknown name "Rock". -/
theorem unknown_preset_leaves_params_witness :
    (handlePresetChange "Rock"
      { preset := "Podcast", params := initialMasterParams }).params =
      initialMasterParams
    ∧ (handlePresetChange "Rock"
        { preset := "Podcast", params := initialMasterParams }).preset = "Rock" :=
  unknown_preset_leaves_params "Rock" _ rfl

/-- C3: the start-thumb handler clamps the new cutStart to at most
cutEnd - 1, the end-thumb handler clamps the new cutEnd to at least
cutStart + 1, and every sequence of slider interactions starting from a
state with cutStart < cutEnd preserves cutStart < cutEnd. -/
theorem cut_range_invariant (v : Int) (s : ModifyParams) (es : List ModifyEvent) :
    (applyModifyEvent (ModifyEvent.setCutStart v) s).cutStart ≤ s.cutEnd - 1
    ∧ (applyModifyEvent (ModifyEvent.setCutEnd v) s).cutEnd ≥ s.cutStart + 1
    ∧ (s.cutStart < s.cutEnd →
        (applyModifyEvents es s).cutStart < (applyModifyEvents es s).cutEnd) := by
  refine ⟨?_, ?_, ?_⟩
  · simp [applyModifyEvent]
  · simp [applyModifyEvent]
  · intro h
    induction es generalizing s with
    | nil => simpa [applyModifyEvents] using h
    | cons e rest ih =>
        have hstep : (applyModifyEvent e s).cutStart < (applyModifyEvent e s).cutEnd := by
          cases e with
          | setSpeed w => simpa [applyModifyEvent] using h
          | setPitch w => simpa [applyModifyEvent] using h
          | setCutStart w =>
              simp only [applyModifyEvent]
              omega
          | setCutEnd w =>
              simp only [applyModifyEvent]
              omega
        simpa [applyModifyEvents, List.foldl_cons] using ih (applyModifyEvent e s) hstep

/-- C3 witness: dragging the end thumb to 0 and then the start thumb to
100 from the initial 0..100 range keeps the invariant. -/
theorem cut_range_invariant_witness :
    initialModifyParams.cutStart < initialModifyParams.cutEnd
    ∧ (applyModifyEvents [ModifyEvent.setCutEnd 0, ModifyEvent.setCutStart 100]
        initialModifyParams).cutStart <
      (applyModifyEvents [ModifyEvent.setCutEnd 0, ModifyEvent.setCutStart 100]
        initialModifyParams).cutEnd :=
  ⟨by decide,
   (cut_range_invariant 0 initialModifyParams
     [ModifyEvent.setCutEnd 0, ModifyEvent.setCutStart 100]).2.2 (by decide)⟩

/-- The concurrent_files field of the payload equals the parse-or-default
expression, in every mode. -/
theorem buildPayload_concurrent_files (settings : Settings) (s : HomeState) :
    (buildPayload settings s).concurrent_files =
      jsOrInt (jsParseInt settings.concurrentFiles) 2 := by
  cases hm : s.mode <;> simp [buildPayload, hm]

/-- C5 counterexample: with the stored setting "100" the payload carries
concurrent_files = 100, which does not lie within [1, 16]; the payload
builder applies no clamping. -/
theorem concurrent_files_unclamped_counterexample :
    (buildPayload { DEFAULT_SETTINGS with concurrentFiles := "100" }
      sampleHome).concurrent_files = 100
    ∧ ¬ ((buildPayload { DEFAULT_SETTINGS with concurrentFiles := "100" }
      sampleHome).concurrent_files ≤ 16) := by
  refine ⟨rfl, ?_⟩
  rw [buildPayload_concurrent_files]
  decide

/-- C5 amended: concurrent_files equals the configured concurrentFiles
setting parsed as an integer when that parse yields a nonzero value, and
defaults to 2 when the setting is non-numeric or parses to 0; with the
default settings it is 2. No clamping to [1, 16] is applied, so nonzero
parsed values outside that range pass through unchanged. -/
theorem concurrent_files_field_spec (settings : Settings) (s : HomeState) :
    (jsParseInt settings.concurrentFiles = none →
      (buildPayload settings s).concurrent_files = 2)
    ∧ (jsParseInt settings.concurrentFiles = some 0 →
      (buildPayload settings s).concurrent_files = 2)
    ∧ (∀ n : Int, jsParseInt settings.concurrentFiles = some n → n ≠ 0 →
      (buildPayload settings s).concurrent_files = n)
    ∧ (buildPayload DEFAULT_SETTINGS s).concurrent_files = 2 := by
  refine ⟨?_, ?_, ?_, ?_⟩
  · intro h
    rw [buildPayload_concurrent_files, h]
    rfl
  · intro h
    rw [buildPayload_concurrent_files, h]
    simp [jsOrInt]
  · intro n h hn
    rw [buildPayload_concurrent_files, h]
    simp [jsOrInt, hn]
  · rw [buildPayload_concurrent_files]
    decide

/-- C5 witness: the amended statement at the setting "8", which parses to
the nonzero value 8 and is carried through unchanged. -/
theorem concurrent_files_field_spec_witness :
    jsParseInt "8" = some 8
    ∧ (buildPayload { DEFAULT_SETTINGS with concurrentFiles := "8" }
        sampleHome).concurrent_files = 8 :=
  ⟨by decide,
   (concurrent_files_field_spec { DEFAULT_SETTINGS with concurrentFiles := "8" }
     sampleHome).2.2.1 8 (by decide) (by decide)⟩

/-- C6: a submission with an empty file list, or with no output folder
selected, is rejected synchronously: the convert command is not invoked
and the only state change is the error toast. -/
theorem submission_guard_rejects (settings : Settings) (s : HomeState) :
    (s.files = [] →
      handleProcess settings s =
        ({ s with toast := some { tone := "error",
                                  message := t "pleaseAddProcess" } }, none))
    ∧ (s.files ≠ [] → s.outputFolder = "" →
      handleProcess settings s =
        ({ s with toast := some { tone := "error",
                                  message := t "pleaseSelectOutput" } }, none)) := by
  constructor
  · intro h
    simp [handleProcess, h]
  · intro h1 h2
    have hlen : s.files.length ≠ 0 := by
      simpa [List.length_eq_zero] using h1
    simp [handleProcess, hlen, h2]

/-- C6 witness: processing with no files selected only raises the error
toast and dispatches nothing. -/
theorem submission_guard_rejects_witness :
    handleProcess DEFAULT_SETTINGS emptyHome =
      ({ emptyHome with toast := some { tone := "error",
                                        message := t "pleaseAddProcess" } }, none) :=
  (submission_guard_rejects DEFAULT_SETTINGS emptyHome).1 rfl

/-- C7: a conversion-progress event whose operation_type is "analyze"
leaves the entire UI job state unchanged and triggers no effects. -/
theorem analyze_events_ignored (settings : Settings) (ev : ConversionEvent)
    (s : HomeState) (h : ev.operation_type = some "analyze") :
    applyConversionEvent settings ev s = (s, {}) := by
  simp [applyConversionEvent, h]

/-- C7 witness: even a complete-success event is ignored when it is
marked analyze. -/
theorem analyze_events_ignored_witness :
    applyConversionEvent DEFAULT_SETTINGS
      { event := "complete", operation_type := some "analyze",
        status := "success", outputs := some [some "/out/a.flac"] }
      sampleHome = (sampleHome, {}) :=
  analyze_events_ignored DEFAULT_SETTINGS _ sampleHome rfl

/-- C10: a Complete event whose status is not "success" marks every file
in the list as failed, resets overall progress to 0 and clears the
current file; the per-file information carried in the outputs array is
discarded: the resulting state and effects do not depend on outputs at
all. -/
theorem complete_error_marks_all_failed (settings : Settings)
    (ev : ConversionEvent) (s : HomeState)
    (h1 : ev.event = "complete")
    (h2 : ev.operation_type ≠ some "analyze")
    (h3 : ev.status ≠ "success") :
    (applyConversionEvent settings ev s).1.files =
      s.files.map (fun f => { f with status := FileStatus.error,
                                     error := some (t "processingFailed") })
    ∧ (applyConversionEvent settings ev s).1.progress = 0
    ∧ (applyConversionEvent settings ev s).1.processingStatus = t "failed"
    ∧ (applyConversionEvent settings ev s).1.currentFile = ""
    ∧ ∀ o1 o2 : Option (List (Option String)),
        applyConversionEvent settings { ev with outputs := o1 } s =
        applyConversionEvent settings { ev with outputs := o2 } s := by
  have hprog : ¬ (ev.event = "progress") := by
    rw [h1]; decide
  refine ⟨?_, ?_, ?_, ?_, ?_⟩
  · simp [applyConversionEvent, h1, h2, h3, hprog]
  · simp [applyConversionEvent, h1, h2, h3, hprog]
  · simp [applyConversionEvent, h1, h2, h3, hprog]
  · simp [applyConversionEvent, h1, h2, h3, hprog]
  · intro o1 o2
    simp [applyConversionEvent, h1, h2, h3, hprog]

/-- C10 witness: an error completion over the sample state fails both
files and zeroes the progress. -/
theorem complete_error_marks_all_failed_witness :
    (applyConversionEvent DEFAULT_SETTINGS
      { event := "complete", status := "error", message := some "boom" }
      sampleHome).1.files =
      sampleHome.files.map (fun f => { f with status := FileStatus.error,
                                              error := some (t "processingFailed") })
    ∧ (applyConversionEvent DEFAULT_SETTINGS
        { event := "complete", status := "error", message := some "boom" }
        sampleHome).1.progress = 0 :=
  ⟨(complete_error_marks_all_failed DEFAULT_SETTINGS _ sampleHome rfl
      (by decide) (by decide)).1,
   (complete_error_marks_all_failed DEFAULT_SETTINGS _ sampleHome rfl
      (by decide) (by decide)).2.1⟩

/-- Positions below the length of a list yield members of it. -/
theorem getD_mem_of_lt (l : List α) (i : Nat) (h : i < l.length) (d : α) :
    l.getD i d ∈ l := by
  induction l generalizing i with
  | nil => simp at h
  | cons a as ih =>
      cases i with
      | zero => simp
      | succ n =>
          simp only [List.getD_cons_succ]
          exact List.mem_cons_of_mem a (ih n (Nat.lt_of_succ_lt_succ h))

/-- Position i of the Complete outputs list is the output slot of the
i-th Task. -/
theorem completeOutputs_getD_eq (j : JobRun) (i : Nat)
    (h : i < j.results.length) :
    (completeOutputs j).getD i none = taskOutput (j.results.getD i default) := by
  rw [completeOutputs]
  exact getD_map_of_lt taskOutput j.results i h default none

/-- Because a succeeded Task never records an empty output path, the
empty-string-to-null collapse of the listener is the identity on the
slots of a Complete outputs list. -/
theorem jsNullIfEmpty_completeOutputs (j : JobRun) (i : Nat)
    (h : i < j.results.length) :
    jsNullIfEmpty ((completeOutputs j).getD i none) =
      (completeOutputs j).getD i none := by
  rw [completeOutputs_getD_eq j i h]
  cases hr : j.results.getD i default with
  | failed e => simp [taskOutput, jsNullIfEmpty]
  | succeeded p =>
      have hmem : j.results.getD i default ∈ j.results :=
        getD_mem_of_lt j.results i h default
      rw [hr] at hmem
      have hp : p ≠ "" := fun h0 => j.outputs_nonempty _ hmem (by rw [h0])
      simp [taskOutput, jsNullIfEmpty, hp]

/-- C2: the Complete event of a JobRun carries one output slot per input
file (null exactly for the failed Tasks), and the conversion-progress
listener, on a success completion over a file list of matching length,
marks the i-th file done with its output field set to outputs[i] (null
when that entry is absent). The last conjunct records the listener's raw
behavior on an arbitrary outputs array: the stored output is
outputs[i] || null, which also collapses an empty-string entry to null;
on a Complete outputs list this collapse is vacuous because succeeded
Tasks never record an empty output path. -/
theorem complete_outputs_align (j : JobRun) (settings : Settings)
    (msg : Option String) (s : HomeState)
    (hlen : j.files.length = s.files.length) :
    (completeOutputs j).length = j.files.length
    ∧ (∀ i, i < j.results.length →
        ((completeOutputs j).getD i none = none ↔
          ∃ e, j.results.getD i default = TaskResult.failed e))
    ∧ (applyConversionEvent settings
        (successCompleteEvent msg (completeOutputs j)) s).1.files.length =
        j.files.length
    ∧ (∀ i, i < s.files.length →
        ((applyConversionEvent settings
            (successCompleteEvent msg (completeOutputs j)) s).1.files.getD i
              default).status = FileStatus.done
        ∧ ((applyConversionEvent settings
            (successCompleteEvent msg (completeOutputs j)) s).1.files.getD i
              default).output = (completeOutputs j).getD i none)
    ∧ (∀ (outputs : List (Option String)) (i : Nat), i < s.files.length →
        ((applyConversionEvent settings
            (successCompleteEvent msg outputs) s).1.files.getD i
              default).output = jsNullIfEmpty (outputs.getD i none)) := by
  have hfiles : ∀ outputs : List (Option String),
      (applyConversionEvent settings
        (successCompleteEvent msg outputs) s).1.files =
      jsMapIdx (fun f i => { f with status := FileStatus.done,
                                    output := jsNullIfEmpty (outputs.getD i none) })
        0 s.files := by
    intro outputs
    simp [applyConversionEvent, successCompleteEvent]
  refine ⟨?_, ?_, ?_, ?_, ?_⟩
  · rw [completeOutputs, List.length_map, j.results_per_file]
  · intro i hi
    rw [completeOutputs, getD_map_of_lt taskOutput j.results i hi default none]
    cases hr : j.results.getD i default with
    | succeeded p => simp [taskOutput]
    | failed e => simp [taskOutput]
  · rw [hfiles (completeOutputs j), jsMapIdx_length, ← hlen]
  · intro i hi
    have hri : i < j.results.length := by
      rw [j.results_per_file, hlen]
      exact hi
    rw [hfiles (completeOutputs j), jsMapIdx_getD _ s.files 0 i hi default default]
    refine ⟨rfl, ?_⟩
    show jsNullIfEmpty ((completeOutputs j).getD (0 + i) none) =
      (completeOutputs j).getD i none
    rw [Nat.zero_add]
    exact jsNullIfEmpty_completeOutputs j i hri
  · intro outputs i hi
    rw [hfiles outputs, jsMapIdx_getD _ s.files 0 i hi default default]
    simp

/-- C2 witness: for the sample two-file JobRun with one success and one
failure, the outputs align and the listener marks both files done with
the aligned outputs. -/
theorem complete_outputs_align_witness :
    (completeOutputs sampleJob).length = sampleJob.files.length
    ∧ ((applyConversionEvent DEFAULT_SETTINGS
        (successCompleteEvent none (completeOutputs sampleJob))
        sampleHome).1.files.getD 1 default).output = none :=
  ⟨(complete_outputs_align sampleJob DEFAULT_SETTINGS none sampleHome rfl).1,
   ((complete_outputs_align sampleJob DEFAULT_SETTINGS none sampleHome rfl).2.2.2.1
      1 (by decide)).2.trans (by decide)⟩

/-- C8 counterexample: one handleFilesAdded batch containing the same
path twice is appended whole, because duplicates are only checked against
the previously present entries; the resulting list has the path "x.mp3"
twice and its paths are not pairwise distinct. -/
theorem duplicate_batch_counterexample :
    ((handleFilesAdded [dupRaw, dupRaw] []).1.map (fun f => f.path)) =
      ["x.mp3", "x.mp3"]
    ∧ ¬ ((handleFilesAdded [dupRaw, dupRaw] []).1.map (fun f => f.path)).Nodup := by
  refine ⟨by decide, by decide⟩

/-- C8 amended: handleFilesAdded keeps the previously present entries
unchanged and in order, appends exactly the incoming files whose path
does not occur among the existing paths, and preserves pairwise-distinct
paths provided the incoming batch itself carries pairwise-distinct paths
(duplicates inside one batch are not filtered). -/
theorem files_added_append_and_nodup (newFiles : List RawFile)
    (current : List FileEntry) :
    (handleFilesAdded newFiles current).1 =
      current ++ (newFiles.map mkImmediateFile).filter
        (fun f => ! (current.map (fun g => g.path)).contains f.path)
    ∧ ((current.map (fun g => g.path)).Nodup →
       ((newFiles.map mkImmediateFile).map (fun f => f.path)).Nodup →
       ((handleFilesAdded newFiles current).1.map (fun f => f.path)).Nodup) := by
  have happ : (handleFilesAdded newFiles current).1 =
      current ++ (newFiles.map mkImmediateFile).filter
        (fun f => ! (current.map (fun g => g.path)).contains f.path) := by
    by_cases hE : ((newFiles.map mkImmediateFile).filter
        (fun f => ! (current.map (fun g => g.path)).contains f.path)).isEmpty = true
    · have h0 : (newFiles.map mkImmediateFile).filter
          (fun f => ! (current.map (fun g => g.path)).contains f.path) = [] :=
        List.isEmpty_iff.mp hE
      simp only [handleFilesAdded]
      rw [if_pos hE, h0, List.append_nil]
    · simp only [handleFilesAdded]
      rw [if_neg hE]
  refine ⟨happ, ?_⟩
  intro h1 h2
  rw [happ, List.map_append]
  refine List.Nodup.append h1 ?_ ?_
  · have hsub : ((newFiles.map mkImmediateFile).filter
        (fun f => ! (current.map (fun g => g.path)).contains f.path)).Sublist
        (newFiles.map mkImmediateFile) := List.filter_sublist _
    exact h2.sublist (hsub.map (fun f => f.path))
  · intro a ha hb
    obtain ⟨f, hf, rfl⟩ := List.mem_map.mp hb
    have hmem := List.mem_filter.mp hf
    have hnc : ((current.map (fun g => g.path)).contains f.path) = false := by
      simpa using hmem.2
    have hc : ((current.map (fun g => g.path)).contains f.path) = true :=
      List.elem_iff.mpr ha
    rw [hnc] at hc
    exact Bool.false_ne_true hc

/-- C8 witness: adding one genuinely new file and one duplicate of an
existing path keeps the path list duplicate-free. -/
theorem files_added_append_and_nodup_witness :
    ((handleFilesAdded
        [{ name := some "a.mp3", path := some "/tmp/a.mp3", size := some 5 },
         { name := some "c.ogg", path := some "/tmp/c.ogg", size := some 7 }]
        [sampleFile, sampleFileB]).1.map (fun f => f.path)).Nodup :=
  (files_added_append_and_nodup
    [{ name := some "a.mp3", path := some "/tmp/a.mp3", size := some 5 },
     { name := some "c.ogg", path := some "/tmp/c.ogg", size := some 7 }]
    [sampleFile, sampleFileB]).2 (by decide) (by decide)

end SoundConverter
